import Mathlib

/-!
Verification of the `RealTimeSimulator` engine from
`src/backend/src/simulation/physics_engine.py`.

The Python floats are modelled as exact rationals (`ℚ`).  Every random
draw the engine makes in one tick (`np.random.random`, `np.random.choice`,
`np.random.uniform`, `np.random.normal`) is supplied explicitly as a field
of `TickRand`; a `np.random.uniform(a, b)` draw is modelled as
`a + u * (b - a)` with a unit-interval draw `u`.  The single transcendental
expression in the engine, `math.sin(math.atan x)`, is abstracted as an
explicit function argument `sa : ℚ → ℚ`; theorems quantify over it, and
closed instances only ever evaluate it at `0`, where `sin (atan 0) = 0`.
-/

/-- The mutable `vehicle_data` dictionary of `RealTimeSimulator.__init__`
(lines 247-264), one field per key. -/
structure VehicleData where
  speed : ℚ
  acceleration : ℚ
  temperature : ℚ
  battery_level : ℚ
  battery_capacity : ℚ
  motor_load : ℚ
  road_grade : ℚ
  tire_pressure : ℚ
  vehicle_weight : ℚ
  wind_speed : ℚ
  road_condition : ℚ
  total_distance : ℚ
  energy_consumption : ℚ
  instant_consumption : ℚ
  simulation_mode : String
  autonomy_remaining : ℚ
deriving DecidableEq

/-- One entry of the `MODE_PARAMS` class dictionary (lines 202-239). -/
structure ModeParams where
  vitesse_max : ℚ
  vitesse_moyenne : ℚ
  acceleration_max : ℚ
  variation_vitesse : ℚ
  conso_base : ℚ
  temps_factor : ℚ
  regeneration : ℚ
deriving DecidableEq

/-- The `MODE_PARAMS` dictionary: `None` for a key that is absent. -/
def MODE_PARAMS : String → Option ModeParams := fun m =>
  if m = "urbain" then some ⟨50, 30, 2, 15, 16, 1, 2/5⟩
  else if m = "sport" then some ⟨150, 90, 4, 25, 25, 3/2, 1/5⟩
  else if m = "autoroute" then some ⟨130, 110, 3/2, 10, 21, 6/5, 1/10⟩
  else if m = "eco" then some ⟨90, 60, 1, 5, 13, 4/5, 1/2⟩
  else none

/-- `mode in MODE_PARAMS` membership test used by `start`/`change_mode`. -/
def isModeKey (m : String) : Bool := (MODE_PARAMS m).isSome

/-- `self.MODE_PARAMS[self.current_mode]`: in every reachable state the key
is one of the four constants, so the `getD` default is never consulted
there; it is the `urbain` entry. -/
def getModeParams (m : String) : ModeParams :=
  (MODE_PARAMS m).getD ⟨50, 30, 2, 15, 16, 1, 2/5⟩

/-- Python's binary `max` on floats, as an explicit conditional so that
concrete instances evaluate. -/
def qmax (a b : ℚ) : ℚ := if a ≤ b then b else a

/-- Python's binary `min` on floats. -/
def qmin (a b : ℚ) : ℚ := if a ≤ b then a else b

/-- Python's `abs` / numpy `abs` on floats. -/
def qabs (a : ℚ) : ℚ := if 0 ≤ a then a else -a

/-- The `mode_factor` dictionary of `_calculate_energy_consumption`
(lines 561-566); keyed by the four mode constants. -/
def modeFactor (m : String) : ℚ :=
  if m = "urbain" then 1
  else if m = "sport" then 3/2
  else if m = "autoroute" then 11/10
  else 4/5

/-- The `name` field of the random-event dictionaries (lines 470-486). -/
inductive EventKind where
  | trafic_dense
  | route_degagee
  | pluie
  | vent_lateral
  | montee
  | feu_rouge
  | peage
deriving DecidableEq

/-- The five always-available event dictionaries (lines 470-476), each with
its `duration`. -/
def baseEvents : List (EventKind × Int) :=
  [(.trafic_dense, 50), (.route_degagee, 40), (.pluie, 60),
   (.vent_lateral, 30), (.montee, 25)]

/-- The mode-dependent candidate list built by `_handle_random_events`
(lines 470-486): urbain appends a second `trafic_dense` and `feu_rouge`;
autoroute appends `peage` and a 70-tick `route_degagee`. -/
def candidateEvents (m : String) : List (EventKind × Int) :=
  if m = "urbain" then baseEvents ++ [(.trafic_dense, 50), (.feu_rouge, 15)]
  else if m = "autoroute" then baseEvents ++ [(.peage, 10), (.route_degagee, 70)]
  else baseEvents

/-- The simulator state: `vehicle_data`, `current_mode`, `current_event`,
`event_duration` and `is_running` (lines 241-273). -/
structure SimState where
  data : VehicleData
  current_mode : String
  current_event : Option EventKind
  event_duration : Int
  is_running : Bool
deriving DecidableEq

/-- The initial state built by `RealTimeSimulator.__init__`. -/
def initState : SimState :=
  { data :=
      { speed := 0, acceleration := 0, temperature := 25, battery_level := 100
        battery_capacity := 60, motor_load := 0, road_grade := 0
        tire_pressure := 12/5, vehicle_weight := 1800, wind_speed := 0
        road_condition := 0, total_distance := 0, energy_consumption := 0
        instant_consumption := 0, simulation_mode := "urbain"
        autonomy_remaining := 390 }
    current_mode := "urbain", current_event := none, event_duration := 0
    is_running := false }

/-- The random draws one call of `_update_vehicle_state` may consume. -/
structure TickRand where
  /-- `np.random.random()` of `_handle_random_events` (line 469). -/
  trial : ℚ
  /-- index drawn by `np.random.choice(events)` (line 489). -/
  choice : Nat
  /-- unit draw behind the `np.random.uniform` of the active effect
  (lines 514, 518). -/
  u1 : ℚ
  /-- unit draw behind the `np.random.uniform(-2, 2)` of the reversion
  (lines 539, 541). -/
  u2 : ℚ
  /-- `np.random.normal(0, variation_vitesse/10)` (line 380). -/
  noise : ℚ
  /-- `np.random.random()` of the tire-pressure branch (line 459). -/
  tireTrial : ℚ
  /-- the nested `np.random.random()` (line 462). -/
  tireTrial2 : ℚ
  /-- unit draw behind `np.random.uniform(0, 0.05)` (line 463). -/
  tireU : ℚ
deriving DecidableEq

/-- `start(mode)` (lines 277-292), thread creation abstracted to the
`is_running` flag: the mode is switched only when `mode` is supplied and is
a known key. -/
def start (s : SimState) (mode : Option String) : SimState :=
  let s1 := match mode with
    | some m =>
        if isModeKey m then
          { s with current_mode := m, data := { s.data with simulation_mode := m } }
        else s
    | none => s
  if s1.is_running then s1 else { s1 with is_running := true }

/-- `change_mode(new_mode)` (lines 301-308); the Bool is the return value. -/
def changeMode (s : SimState) (m : String) : Bool × SimState :=
  if isModeKey m then
    (true, { s with current_mode := m, data := { s.data with simulation_mode := m } })
  else (false, s)

/-- `_handle_random_events` (lines 466-491): when no event is active and
the trial beats `event_probability = 0.01`, draw one candidate and set
`event_duration` to its duration. -/
def handleRandomEvents (s : SimState) (trial : ℚ) (choice : Nat) : SimState :=
  if s.current_event = none ∧ trial < 1/100 then
    let evs := candidateEvents s.current_mode
    let e := evs.getD (choice % evs.length) (.trafic_dense, 50)
    { s with current_event := some e.1, event_duration := e.2 }
  else s

/-- The per-tick effect of the active event on `vehicle_data`
(lines 497-526). -/
def eventEffect (mp : ModeParams) (e : EventKind) (d : VehicleData) (u1 : ℚ) :
    VehicleData :=
  match e with
  | .trafic_dense => { d with speed := qmax 0 (d.speed * (19/20)) }
  | .route_degagee => { d with speed := qmin mp.vitesse_max (d.speed * (21/20)) }
  | .pluie => { d with road_condition := 1,
                       energy_consumption := d.energy_consumption * (11/10) }
  | .vent_lateral => { d with wind_speed := 8 + u1 * 7 }
  | .montee => { d with road_grade := 3 + u1 * 5 }
  | .feu_rouge => { d with speed := qmax 0 (d.speed - 5) }
  | .peage => { d with speed := qmax 0 (d.speed - 10) }

/-- The end-of-event reversion (lines 536-541): the perturbed field is
resampled, not restored. -/
def eventRevert (e : EventKind) (d : VehicleData) (u2 : ℚ) : VehicleData :=
  match e with
  | .pluie => { d with road_condition := 0 }
  | .vent_lateral => { d with wind_speed := -2 + u2 * 4 }
  | .montee => { d with road_grade := -2 + u2 * 4 }
  | _ => d

/-- `_apply_event_effects` (lines 493-543): apply the effect, decrement
`event_duration`, and when it reaches `≤ 0` revert and clear the event. -/
def applyEventEffects (s : SimState) (u1 u2 : ℚ) : SimState :=
  match s.current_event with
  | none => s
  | some e =>
      let d := eventEffect (getModeParams s.current_mode) e s.data u1
      let dur := s.event_duration - 1
      if dur ≤ 0 then
        { s with data := eventRevert e d u2, current_event := none,
                 event_duration := dur }
      else { s with data := d, event_duration := dur }

/-- The event phase of one tick (lines 354-359): handle random events, then
apply the active event's effects if one is in progress. -/
def stepEvents (s : SimState) (r : TickRand) : SimState :=
  if (handleRandomEvents s r.trial r.choice).current_event.isSome then
    applyEventEffects (handleRandomEvents s r.trial r.choice) r.u1 r.u2
  else handleRandomEvents s r.trial r.choice

/-- `tendance_vitesse` (lines 362-370): three regimes around the mode's
average speed. -/
def tendanceVitesse (mp : ModeParams) (speed : ℚ) : ℚ :=
  if speed < mp.vitesse_moyenne - 5 then
    qmin (mp.acceleration_max * (1/2)) ((mp.vitesse_moyenne - speed) * (1/10))
  else if mp.vitesse_moyenne + 5 < speed then
    qmax (-(mp.acceleration_max * (3/10))) ((mp.vitesse_moyenne - speed) * (1/10))
  else (mp.vitesse_moyenne - speed) * (1/20)

/-- `speed_change` (lines 373-380): tendency plus grade and wind effects,
scaled by the mode's time factor, plus the Gaussian draw. -/
def rawSpeedChange (mp : ModeParams) (d : VehicleData) (noise : ℚ) : ℚ :=
  (tendanceVitesse mp d.speed + (-d.road_grade * (1/5)) + (-d.wind_speed * (1/20)))
    * mp.temps_factor + noise

/-- `vehicle_data['acceleration']` (lines 383-385): the raw speed change
divided by `3.6 * max(0.1, elapsed_time)`, clamped to the mode's maximum
acceleration. -/
def accelOf (mp : ModeParams) (d : VehicleData) (noise elapsed : ℚ) : ℚ :=
  qmin mp.acceleration_max
    (qmax (-mp.acceleration_max)
      (rawSpeedChange mp d noise / ((36/10) * qmax (1/10) elapsed)))

/-- `vehicle_data['speed']` (lines 388-389): integrate the acceleration and
clamp into `[0, vitesse_max]`. -/
def newSpeed (mp : ModeParams) (d : VehicleData) (noise elapsed : ℚ) : ℚ :=
  qmax 0 (qmin mp.vitesse_max (d.speed + accelOf mp d noise elapsed * (36/10) * elapsed))

/-- `vehicle_data['total_distance']` (lines 392-393). -/
def newDistance (mp : ModeParams) (d : VehicleData) (noise elapsed : ℚ) : ℚ :=
  d.total_distance + (newSpeed mp d noise elapsed * elapsed * mp.temps_factor / 3600) * 1000

/-- `vehicle_data['instant_consumption']` (lines 395-421); `sa` stands for
`math.sin(math.atan ·)` in the grade-resistance term. -/
def instantConso (sa : ℚ → ℚ) (mp : ModeParams) (d : VehicleData)
    (noise elapsed : ℚ) : ℚ :=
  let v := newSpeed mp d noise elapsed
  let a := accelOf mp d noise elapsed
  let aero := (1/2) * (49/40) * (3/10) * (5/2) * (v / (36/10)) ^ 2
  let rolling := (13/1000) * d.vehicle_weight * (981/100)
  let grade := d.vehicle_weight * (981/100) * sa (d.road_grade / 100)
  let road_power := (aero + rolling + grade) * (v / (36/10))
  let accel_power := qmax 0 (d.vehicle_weight * a * (v / (36/10)))
  let motor_efficiency := (9/10) - (1/10) * (d.temperature - 25) / 60
  let total0 := (road_power + accel_power) / 1000 / qmax (7/10) motor_efficiency
  let total1 :=
    if a < -(1/5) then
      total0 + qmin 0 (d.vehicle_weight * a * (v / (36/10)) * mp.regeneration / 1000)
    else total0
  let idle := if d.temperature < 15 then 8/10 else 5/10
  qmax 0 (total1 + idle)

/-- `vehicle_data['energy_consumption']` as set inside
`_update_vehicle_state` (lines 424-428): power over speed times 100 above
5 km/h, else the mode's base consumption. -/
def consoDisplay (sa : ℚ → ℚ) (mp : ModeParams) (d : VehicleData)
    (noise elapsed : ℚ) : ℚ :=
  if 5 < newSpeed mp d noise elapsed then
    instantConso sa mp d noise elapsed / newSpeed mp d noise elapsed * 100
  else mp.conso_base

/-- `vehicle_data['battery_level']` (lines 431-435): subtract the battery
percentage of the energy used, floored at 0. -/
def batteryAfter (sa : ℚ → ℚ) (mp : ModeParams) (d : VehicleData)
    (noise elapsed : ℚ) : ℚ :=
  qmax 0 (d.battery_level
    - instantConso sa mp d noise elapsed * elapsed / 3600 / d.battery_capacity * 100)

/-- `vehicle_data['autonomy_remaining']` (lines 438-441). -/
def autonomyAfter (sa : ℚ → ℚ) (mp : ModeParams) (d : VehicleData)
    (noise elapsed : ℚ) : ℚ :=
  let avg := mp.conso_base * (1 + (1/10) * (newSpeed mp d noise elapsed / mp.vitesse_moyenne - 1))
  batteryAfter sa mp d noise elapsed / 100 * d.battery_capacity / avg * 100

/-- `vehicle_data['temperature']` (lines 443-449): first-order approach to
the load-driven target, clamped into `[20, 90]`. -/
def tempAfter (mp : ModeParams) (d : VehicleData) : ℚ :=
  let target := 20 + (d.motor_load / 100) * 60
  qmax 20 (qmin 90 (d.temperature + (target - d.temperature) * (1/10) * mp.temps_factor))

/-- `vehicle_data['motor_load']` (lines 451-456). -/
def motorLoadAfter (mp : ModeParams) (d : VehicleData) (noise elapsed : ℚ) : ℚ :=
  qmin 100 (qmax 0 (20 + 40 * (newSpeed mp d noise elapsed / mp.vitesse_max)
    + 40 * qabs (accelOf mp d noise elapsed / mp.acceleration_max)))

/-- `vehicle_data['tire_pressure']` (lines 458-464). -/
def tireAfter (mp : ModeParams) (d : VehicleData)
    (elapsed tTrial tTrial2 tU : ℚ) : ℚ :=
  if tTrial < (5/1000) * mp.temps_factor then
    let loss := (1/1000) * elapsed
    let loss := if tTrial2 < 1/10 then loss + tU * (5/100) else loss
    qmax (3/2) (d.tire_pressure - loss)
  else d.tire_pressure

/-- The kinematics/energy/thermal body of `_update_vehicle_state`
(lines 362-464), applied to the post-event data: every field written by
that code, each from the pre-tick values and the earlier writes of the same
tick, in source order. -/
def kinUpdate (sa : ℚ → ℚ) (mp : ModeParams) (d : VehicleData)
    (elapsed noise tTrial tTrial2 tU : ℚ) : VehicleData :=
  { d with
    acceleration := accelOf mp d noise elapsed
    speed := newSpeed mp d noise elapsed
    total_distance := newDistance mp d noise elapsed
    instant_consumption := instantConso sa mp d noise elapsed
    energy_consumption := consoDisplay sa mp d noise elapsed
    battery_level := batteryAfter sa mp d noise elapsed
    autonomy_remaining := autonomyAfter sa mp d noise elapsed
    temperature := tempAfter mp d
    motor_load := motorLoadAfter mp d noise elapsed
    tire_pressure := tireAfter mp d elapsed tTrial tTrial2 tU }

/-- `_update_vehicle_state(elapsed_time)` (lines 343-464). -/
def updateVehicleState (sa : ℚ → ℚ) (s : SimState) (elapsed : ℚ)
    (r : TickRand) : SimState :=
  let mp := getModeParams s.current_mode
  let s2 := stepEvents s r
  { s2 with data := kinUpdate sa mp s2.data elapsed r.noise r.tireTrial r.tireTrial2 r.tireU }

/-- The additive formula of `_calculate_energy_consumption`
(lines 545-579). -/
def consoTotale (mode : String) (d : VehicleData) : ℚ :=
  (getModeParams mode).conso_base * modeFactor mode
    + (1/100) * d.speed ^ 2
    + 2 * qabs d.acceleration
    + (1/10) * qabs (d.temperature - 20)
    + (1/20) * (100 - d.battery_level)
    + (1/50) * d.motor_load
    + (1/2) * qabs d.road_grade
    + (1/5) * qabs d.wind_speed
    + 1 * d.road_condition

/-- `_calculate_energy_consumption` overwrites
`vehicle_data['energy_consumption']` with the additive formula. -/
def calculateEnergyConsumption (s : SimState) : SimState :=
  { s with data := { s.data with energy_consumption := consoTotale s.current_mode s.data } }

/-- One iteration of `_simulation_loop` (lines 315-326) up to the snapshot:
`_update_vehicle_state(elapsed)` then `_calculate_energy_consumption()`. -/
def tick (sa : ℚ → ℚ) (s : SimState) (elapsed : ℚ) (r : TickRand) : SimState :=
  calculateEnergyConsumption (updateVehicleState sa s elapsed r)

/-- The snapshot of `get_current_data` (lines 595-599): a copy of
`vehicle_data` plus the wall-clock `datetime.now().isoformat()` string. -/
structure Snapshot where
  data : VehicleData
  timestamp : String
deriving DecidableEq

def getCurrentData (s : SimState) (now : String) : Snapshot :=
  ⟨s.data, now⟩

/-- The per-tick inputs of one loop iteration: the elapsed wall time, the
random draws, and the wall-clock reading taken by `get_current_data`. -/
structure TickInput where
  elapsed : ℚ
  rand : TickRand
  now : String
deriving DecidableEq

/-- Run the loop over a list of tick inputs, collecting the snapshots
delivered to the callbacks. -/
def runSim (sa : ℚ → ℚ) (s : SimState) : List TickInput → List Snapshot
  | [] => []
  | i :: rest =>
      let s' := tick sa s i.elapsed i.rand
      getCurrentData s' i.now :: runSim sa s' rest

/-- Run the loop over a list of `(elapsed, rand)` pairs, returning the
final state. -/
def execTicks (sa : ℚ → ℚ) (s : SimState) : List (ℚ × TickRand) → SimState
  | [] => s
  | p :: rest => execTicks sa (tick sa s p.1 p.2) rest

/-- Stand-in for `math.sin(math.atan ·)` used by the closed instances
below; they evaluate it only at `0`, where `sin (atan 0) = 0` exactly. -/
def sinAtanZero : ℚ → ℚ := fun _ => 0

/-- A draw record that triggers nothing random: the event trial and tire
trial both fail, the Gaussian noise is zero. -/
def quietRand : TickRand :=
  { trial := 1, choice := 0, u1 := 0, u2 := 0, noise := 0,
    tireTrial := 1, tireTrial2 := 1, tireU := 0 }

/-- The initial state driving at 40 km/h (urbain mode), no active event. -/
def cruising40 : SimState :=
  { initState with data := { initState.data with speed := 40 } }

/-- A state at 50 km/h with a `feu_rouge` event in progress. -/
def redLightState : SimState :=
  { initState with
    data := { initState.data with speed := 50 }
    current_event := some EventKind.feu_rouge
    event_duration := 5 }

/-- A state at 50 km/h with a `peage` event in progress. -/
def tollState : SimState :=
  { redLightState with current_event := some EventKind.peage }

/-- A state with a `pluie` event one tick from expiry. -/
def rainEnding : SimState :=
  { initState with
    current_event := some EventKind.pluie
    event_duration := 1 }

/-- Two one-tick input lists: the same elapsed time and random draws, but
wall clocks read seven seconds apart. -/
def inputsA : List TickInput := [⟨1, quietRand, "2024-01-01T00:00:00"⟩]

def inputsB : List TickInput := [⟨1, quietRand, "2024-01-01T00:00:07"⟩]

/-! ### Helper lemmas: the conditional max/min/abs -/

lemma qmax_eq_max (a b : ℚ) : qmax a b = max a b := (max_def a b).symm

lemma qmin_eq_min (a b : ℚ) : qmin a b = min a b := (min_def a b).symm

lemma qabs_eq_abs (a : ℚ) : qabs a = |a| := by
  unfold qabs
  split_ifs with h
  · exact (abs_of_nonneg h).symm
  · exact (abs_of_neg (lt_of_not_le h)).symm

lemma le_qmax_left (a b : ℚ) : a ≤ qmax a b := by
  rw [qmax_eq_max]; exact le_max_left a b

lemma le_qmax_right (a b : ℚ) : b ≤ qmax a b := by
  rw [qmax_eq_max]; exact le_max_right a b

lemma qmax_le {a b c : ℚ} (h1 : a ≤ c) (h2 : b ≤ c) : qmax a b ≤ c := by
  rw [qmax_eq_max]; exact max_le h1 h2

lemma le_qmin {a b c : ℚ} (h1 : c ≤ a) (h2 : c ≤ b) : c ≤ qmin a b := by
  rw [qmin_eq_min]; exact le_min h1 h2

lemma qmin_le_left (a b : ℚ) : qmin a b ≤ a := by
  rw [qmin_eq_min]; exact min_le_left a b

/-! ### Helper lemmas: the mode table -/

lemma vitesse_max_nonneg (m : String) : 0 ≤ (getModeParams m).vitesse_max := by
  unfold getModeParams MODE_PARAMS
  split_ifs <;> norm_num [Option.getD]

lemma acceleration_max_nonneg (m : String) : 0 ≤ (getModeParams m).acceleration_max := by
  unfold getModeParams MODE_PARAMS
  split_ifs <;> norm_num [Option.getD]

lemma temps_factor_pos (m : String) : 0 < (getModeParams m).temps_factor := by
  unfold getModeParams MODE_PARAMS
  split_ifs <;> norm_num [Option.getD]

/-! ### Helper lemmas: what the event phase leaves untouched -/

lemma handleRandomEvents_data (s : SimState) (t : ℚ) (c : Nat) :
    (handleRandomEvents s t c).data = s.data := by
  unfold handleRandomEvents
  split <;> rfl

lemma handleRandomEvents_mode (s : SimState) (t : ℚ) (c : Nat) :
    (handleRandomEvents s t c).current_mode = s.current_mode := by
  unfold handleRandomEvents
  split <;> rfl

lemma eventEffect_battery_level (mp : ModeParams) (e : EventKind) (d : VehicleData) (u1 : ℚ) :
    (eventEffect mp e d u1).battery_level = d.battery_level := by
  cases e <;> rfl

lemma eventEffect_battery_capacity (mp : ModeParams) (e : EventKind) (d : VehicleData) (u1 : ℚ) :
    (eventEffect mp e d u1).battery_capacity = d.battery_capacity := by
  cases e <;> rfl

lemma eventEffect_total_distance (mp : ModeParams) (e : EventKind) (d : VehicleData) (u1 : ℚ) :
    (eventEffect mp e d u1).total_distance = d.total_distance := by
  cases e <;> rfl

lemma eventRevert_battery_level (e : EventKind) (d : VehicleData) (u2 : ℚ) :
    (eventRevert e d u2).battery_level = d.battery_level := by
  cases e <;> rfl

lemma eventRevert_battery_capacity (e : EventKind) (d : VehicleData) (u2 : ℚ) :
    (eventRevert e d u2).battery_capacity = d.battery_capacity := by
  cases e <;> rfl

lemma eventRevert_total_distance (e : EventKind) (d : VehicleData) (u2 : ℚ) :
    (eventRevert e d u2).total_distance = d.total_distance := by
  cases e <;> rfl

lemma applyEventEffects_mode (s : SimState) (u1 u2 : ℚ) :
    (applyEventEffects s u1 u2).current_mode = s.current_mode := by
  unfold applyEventEffects
  cases s.current_event with
  | none => rfl
  | some e => dsimp only []; split <;> rfl

lemma applyEventEffects_battery_level (s : SimState) (u1 u2 : ℚ) :
    (applyEventEffects s u1 u2).data.battery_level = s.data.battery_level := by
  unfold applyEventEffects
  cases s.current_event with
  | none => rfl
  | some e =>
      dsimp only []
      split <;> simp [eventRevert_battery_level, eventEffect_battery_level]

lemma applyEventEffects_battery_capacity (s : SimState) (u1 u2 : ℚ) :
    (applyEventEffects s u1 u2).data.battery_capacity = s.data.battery_capacity := by
  unfold applyEventEffects
  cases s.current_event with
  | none => rfl
  | some e =>
      dsimp only []
      split <;> simp [eventRevert_battery_capacity, eventEffect_battery_capacity]

lemma applyEventEffects_total_distance (s : SimState) (u1 u2 : ℚ) :
    (applyEventEffects s u1 u2).data.total_distance = s.data.total_distance := by
  unfold applyEventEffects
  cases s.current_event with
  | none => rfl
  | some e =>
      dsimp only []
      split <;> simp [eventRevert_total_distance, eventEffect_total_distance]

lemma stepEvents_mode (s : SimState) (r : TickRand) :
    (stepEvents s r).current_mode = s.current_mode := by
  unfold stepEvents
  split
  · rw [applyEventEffects_mode, handleRandomEvents_mode]
  · rw [handleRandomEvents_mode]

lemma stepEvents_battery_level (s : SimState) (r : TickRand) :
    (stepEvents s r).data.battery_level = s.data.battery_level := by
  unfold stepEvents
  split
  · rw [applyEventEffects_battery_level, handleRandomEvents_data]
  · rw [handleRandomEvents_data]

lemma stepEvents_battery_capacity (s : SimState) (r : TickRand) :
    (stepEvents s r).data.battery_capacity = s.data.battery_capacity := by
  unfold stepEvents
  split
  · rw [applyEventEffects_battery_capacity, handleRandomEvents_data]
  · rw [handleRandomEvents_data]

lemma stepEvents_total_distance (s : SimState) (r : TickRand) :
    (stepEvents s r).data.total_distance = s.data.total_distance := by
  unfold stepEvents
  split
  · rw [applyEventEffects_total_distance, handleRandomEvents_data]
  · rw [handleRandomEvents_data]

/-! ### Helper lemmas: field equations for one tick -/

lemma tick_mode (sa : ℚ → ℚ) (s : SimState) (dt : ℚ) (r : TickRand) :
    (tick sa s dt r).current_mode = s.current_mode := by
  show (stepEvents s r).current_mode = s.current_mode
  exact stepEvents_mode s r

lemma tick_speed (sa : ℚ → ℚ) (s : SimState) (dt : ℚ) (r : TickRand) :
    (tick sa s dt r).data.speed
      = newSpeed (getModeParams s.current_mode) (stepEvents s r).data r.noise dt := rfl

lemma tick_acceleration (sa : ℚ → ℚ) (s : SimState) (dt : ℚ) (r : TickRand) :
    (tick sa s dt r).data.acceleration
      = accelOf (getModeParams s.current_mode) (stepEvents s r).data r.noise dt := rfl

lemma tick_temperature (sa : ℚ → ℚ) (s : SimState) (dt : ℚ) (r : TickRand) :
    (tick sa s dt r).data.temperature
      = tempAfter (getModeParams s.current_mode) (stepEvents s r).data := rfl

lemma tick_battery_level (sa : ℚ → ℚ) (s : SimState) (dt : ℚ) (r : TickRand) :
    (tick sa s dt r).data.battery_level
      = batteryAfter sa (getModeParams s.current_mode) (stepEvents s r).data r.noise dt := rfl

lemma tick_total_distance (sa : ℚ → ℚ) (s : SimState) (dt : ℚ) (r : TickRand) :
    (tick sa s dt r).data.total_distance
      = newDistance (getModeParams s.current_mode) (stepEvents s r).data r.noise dt := rfl

lemma tick_battery_capacity (sa : ℚ → ℚ) (s : SimState) (dt : ℚ) (r : TickRand) :
    (tick sa s dt r).data.battery_capacity = s.data.battery_capacity := by
  show (stepEvents s r).data.battery_capacity = s.data.battery_capacity
  exact stepEvents_battery_capacity s r

/-! ### Helper lemmas: bounds of the per-tick update formulas -/

lemma newSpeed_nonneg (mp : ModeParams) (d : VehicleData) (noise elapsed : ℚ) :
    0 ≤ newSpeed mp d noise elapsed :=
  le_qmax_left 0 _

lemma newSpeed_le_vmax (mp : ModeParams) (d : VehicleData) (noise elapsed : ℚ)
    (h : 0 ≤ mp.vitesse_max) : newSpeed mp d noise elapsed ≤ mp.vitesse_max :=
  qmax_le h (qmin_le_left _ _)

lemma instantConso_nonneg (sa : ℚ → ℚ) (mp : ModeParams) (d : VehicleData)
    (noise elapsed : ℚ) : 0 ≤ instantConso sa mp d noise elapsed :=
  le_qmax_left 0 _

lemma batteryAfter_nonneg (sa : ℚ → ℚ) (mp : ModeParams) (d : VehicleData)
    (noise elapsed : ℚ) : 0 ≤ batteryAfter sa mp d noise elapsed :=
  le_qmax_left 0 _

lemma batteryAfter_le (sa : ℚ → ℚ) (mp : ModeParams) (d : VehicleData)
    (noise elapsed : ℚ) (hb : 0 ≤ d.battery_level) (he : 0 ≤ elapsed)
    (hc : 0 ≤ d.battery_capacity) :
    batteryAfter sa mp d noise elapsed ≤ d.battery_level := by
  unfold batteryAfter
  have hdrain : 0 ≤ instantConso sa mp d noise elapsed * elapsed / 3600
      / d.battery_capacity * 100 := by
    have h1 : 0 ≤ instantConso sa mp d noise elapsed := instantConso_nonneg ..
    positivity
  exact qmax_le hb (by linarith)

lemma newDistance_ge (mp : ModeParams) (d : VehicleData) (noise elapsed : ℚ)
    (he : 0 ≤ elapsed) (htf : 0 ≤ mp.temps_factor) :
    d.total_distance ≤ newDistance mp d noise elapsed := by
  unfold newDistance
  have hv : 0 ≤ newSpeed mp d noise elapsed := newSpeed_nonneg ..
  have : 0 ≤ newSpeed mp d noise elapsed * elapsed * mp.temps_factor / 3600 * 1000 := by
    positivity
  linarith

/-- One tick is monotone: distance can only grow, the battery can only
drain (given a non-negative elapsed time and capacity), and the capacity
itself is untouched. -/
lemma tick_mono (sa : ℚ → ℚ) (s : SimState) (dt : ℚ) (r : TickRand)
    (hdt : 0 ≤ dt) (hcap : 0 ≤ s.data.battery_capacity)
    (hb : 0 ≤ s.data.battery_level) :
    s.data.total_distance ≤ (tick sa s dt r).data.total_distance ∧
    (tick sa s dt r).data.battery_level ≤ s.data.battery_level ∧
    0 ≤ (tick sa s dt r).data.battery_level ∧
    (tick sa s dt r).data.battery_capacity = s.data.battery_capacity := by
  refine ⟨?_, ?_, ?_, tick_battery_capacity sa s dt r⟩
  · rw [tick_total_distance]
    have := newDistance_ge (getModeParams s.current_mode) (stepEvents s r).data r.noise dt
      hdt (le_of_lt (temps_factor_pos s.current_mode))
    rw [stepEvents_total_distance] at this
    exact this
  · rw [tick_battery_level]
    have := batteryAfter_le sa (getModeParams s.current_mode) (stepEvents s r).data r.noise dt
      (by rw [stepEvents_battery_level]; exact hb) hdt
      (by rw [stepEvents_battery_capacity]; exact hcap)
    rw [stepEvents_battery_level] at this
    exact this
  · rw [tick_battery_level]
    exact batteryAfter_nonneg ..

/-! ### Claim theorems -/

/-- C1: after every simulation tick — whatever the active event did to the
speed during the tick, and whatever mode is active — the vehicle speed
satisfies `0 ≤ speed ≤ vitesse_max` of the currently active mode profile. -/
theorem speed_invariant_after_tick (sa : ℚ → ℚ) (s : SimState) (dt : ℚ)
    (r : TickRand) :
    0 ≤ (tick sa s dt r).data.speed ∧
    (tick sa s dt r).data.speed
      ≤ (getModeParams (tick sa s dt r).current_mode).vitesse_max := by
  rw [tick_mode, tick_speed]
  exact ⟨newSpeed_nonneg .., newSpeed_le_vmax _ _ _ _ (vitesse_max_nonneg _)⟩

/-- C10: after every tick of the mode-driven simulator, the motor
temperature lies in `[20, 90]` °C — bounded below by the 20 °C ambient and
above by the undocumented 90 °C cap of line 449. -/
theorem temperature_bounds_after_tick (sa : ℚ → ℚ) (s : SimState) (dt : ℚ)
    (r : TickRand) :
    20 ≤ (tick sa s dt r).data.temperature ∧
    (tick sa s dt r).data.temperature ≤ 90 := by
  rw [tick_temperature]
  unfold tempAfter
  exact ⟨le_qmax_left 20 _, qmax_le (by norm_num) (qmin_le_left 90 _)⟩

/-- C7: whenever the acceleration is recomputed during a tick, it is the
raw speed delta divided by `3.6 * max(0.1, dt)` — a denominator bounded
below by `0.36` for every `dt`, including `dt = 0` — clamped to the active
mode's `± acceleration_max`. -/
theorem acceleration_floored_denominator_and_clamp (sa : ℚ → ℚ) (s : SimState)
    (dt : ℚ) (r : TickRand) :
    (tick sa s dt r).data.acceleration
      = qmin (getModeParams s.current_mode).acceleration_max
          (qmax (-(getModeParams s.current_mode).acceleration_max)
            (rawSpeedChange (getModeParams s.current_mode) (stepEvents s r).data r.noise
              / ((36/10) * qmax (1/10) dt))) ∧
    -(getModeParams s.current_mode).acceleration_max ≤ (tick sa s dt r).data.acceleration ∧
    (tick sa s dt r).data.acceleration ≤ (getModeParams s.current_mode).acceleration_max ∧
    (9/25 : ℚ) ≤ (36/10) * qmax (1/10) dt := by
  rw [tick_acceleration]
  refine ⟨rfl, ?_, qmin_le_left _ _, ?_⟩
  · unfold accelOf
    refine le_qmin ?_ (le_qmax_left _ _)
    have := acceleration_max_nonneg s.current_mode
    linarith
  · rw [qmax_eq_max]
    have h : (1/10 : ℚ) ≤ max (1/10) dt := le_max_left _ _
    calc (9/25 : ℚ) = (36/10) * (1/10) := by norm_num
      _ ≤ (36/10) * max (1/10) dt := by
            exact mul_le_mul_of_nonneg_left h (by norm_num)

/-- C2: across any sequence of ticks (no charge operation exists in the
engine), `total_distance` never decreases and `battery_level` never
increases while staying inside `[0, 100]`, given non-negative elapsed
times, a non-negative battery capacity and an initial level in range. -/
theorem distance_battery_monotone (sa : ℚ → ℚ) (s : SimState)
    (l : List (ℚ × TickRand)) (hdt : ∀ p ∈ l, 0 ≤ p.1)
    (hcap : 0 ≤ s.data.battery_capacity) (hb0 : 0 ≤ s.data.battery_level)
    (hb1 : s.data.battery_level ≤ 100) :
    s.data.total_distance ≤ (execTicks sa s l).data.total_distance ∧
    (execTicks sa s l).data.battery_level ≤ s.data.battery_level ∧
    0 ≤ (execTicks sa s l).data.battery_level ∧
    (execTicks sa s l).data.battery_level ≤ 100 := by
  induction l generalizing s with
  | nil => exact ⟨le_refl _, le_refl _, hb0, hb1⟩
  | cons p rest ih =>
      have hp : 0 ≤ p.1 := hdt p (List.mem_cons_self ..)
      have hmono := tick_mono sa s p.1 p.2 hp hcap hb0
      have hrest := ih (tick sa s p.1 p.2)
        (fun q hq => hdt q (List.mem_cons_of_mem _ hq))
        (by rw [hmono.2.2.2]; exact hcap) hmono.2.2.1
        (le_trans hmono.2.1 hb1)
      simp only [execTicks]
      exact ⟨le_trans hmono.1 hrest.1, le_trans hrest.2.1 hmono.2.1,
        hrest.2.2.1, hrest.2.2.2⟩

/-- Witness for C2 at one concrete tick from the initial state. -/
theorem distance_battery_monotone_witness :
    initState.data.total_distance
        ≤ (execTicks sinAtanZero initState [(1, quietRand)]).data.total_distance ∧
    (execTicks sinAtanZero initState [(1, quietRand)]).data.battery_level
        ≤ initState.data.battery_level ∧
    0 ≤ (execTicks sinAtanZero initState [(1, quietRand)]).data.battery_level ∧
    (execTicks sinAtanZero initState [(1, quietRand)]).data.battery_level ≤ 100 :=
  distance_battery_monotone sinAtanZero initState [(1, quietRand)]
    (by decide) (by decide) (by decide) (by decide)

lemma tick_road_condition (sa : ℚ → ℚ) (s : SimState) (dt : ℚ) (r : TickRand) :
    (tick sa s dt r).data.road_condition = (stepEvents s r).data.road_condition := rfl

lemma tick_wind_speed (sa : ℚ → ℚ) (s : SimState) (dt : ℚ) (r : TickRand) :
    (tick sa s dt r).data.wind_speed = (stepEvents s r).data.wind_speed := rfl

lemma tick_road_grade (sa : ℚ → ℚ) (s : SimState) (dt : ℚ) (r : TickRand) :
    (tick sa s dt r).data.road_grade = (stepEvents s r).data.road_grade := rfl

lemma tick_current_event (sa : ℚ → ℚ) (s : SimState) (dt : ℚ) (r : TickRand) :
    (tick sa s dt r).current_event = (stepEvents s r).current_event := rfl

/-- When an event is active, `_handle_random_events` leaves the whole state
unchanged. -/
lemma handleRandomEvents_active (s : SimState) (t : ℚ) (c : Nat) (e : EventKind)
    (h : s.current_event = some e) : handleRandomEvents s t c = s := by
  unfold handleRandomEvents
  rw [if_neg]
  simp [h]

/-- With an event active, the event phase of the tick is exactly
`_apply_event_effects`. -/
lemma stepEvents_active (s : SimState) (r : TickRand) (e : EventKind)
    (h : s.current_event = some e) :
    stepEvents s r = applyEventEffects s r.u1 r.u2 := by
  unfold stepEvents
  rw [handleRandomEvents_active s r.trial r.choice e h, if_pos]
  rw [h]; rfl

/-- C5: at most one event is active at any time (the engine stores at most
one in `current_event`), and while one is active the `Idle → Active` draw
is suppressed: `_handle_random_events` is the identity, and a tick can only
keep the same event or clear it — never install a different one. -/
theorem single_event_no_new_draw (sa : ℚ → ℚ) (s : SimState) (t : ℚ) (c : Nat)
    (dt : ℚ) (r : TickRand) (e : EventKind) (h : s.current_event = some e) :
    handleRandomEvents s t c = s ∧
    ((tick sa s dt r).current_event = none ∨
      (tick sa s dt r).current_event = some e) := by
  refine ⟨handleRandomEvents_active s t c e h, ?_⟩
  rw [tick_current_event, stepEvents_active s r e h]
  unfold applyEventEffects
  rw [h]
  dsimp only []
  split
  · left; rfl
  · right; rfl

/-- Witness for C5 with the red-light state. -/
theorem single_event_witness :
    handleRandomEvents redLightState 0 0 = redLightState ∧
    ((tick sinAtanZero redLightState 1 quietRand).current_event = none ∨
      (tick sinAtanZero redLightState 1 quietRand).current_event
        = some EventKind.feu_rouge) :=
  single_event_no_new_draw sinAtanZero redLightState 0 0 1 quietRand
    EventKind.feu_rouge rfl

/-- C4: in the tick where the remaining tick count reaches 0, the injector
returns to Idle (`current_event = none`) and the perturbed field is reset
to a freshly resampled baseline: `road_condition = 0` after Rain,
`wind_speed ∈ [-2, 2]` after CrossWind, `road_grade ∈ [-2, 2]` after
Climb. -/
theorem event_expiry_resets (sa : ℚ → ℚ) (s : SimState) (dt : ℚ) (r : TickRand)
    (e : EventKind) (he : s.current_event = some e) (hd : s.event_duration = 1)
    (h0 : 0 ≤ r.u2) (h1 : r.u2 ≤ 1) :
    (tick sa s dt r).current_event = none ∧
    (e = .pluie → (tick sa s dt r).data.road_condition = 0) ∧
    (e = .vent_lateral →
      -2 ≤ (tick sa s dt r).data.wind_speed ∧
      (tick sa s dt r).data.wind_speed ≤ 2) ∧
    (e = .montee →
      -2 ≤ (tick sa s dt r).data.road_grade ∧
      (tick sa s dt r).data.road_grade ≤ 2) := by
  have hstep : stepEvents s r
      = { s with
          data := eventRevert e
            (eventEffect (getModeParams s.current_mode) e s.data r.u1) r.u2
          current_event := none
          event_duration := 0 } := by
    rw [stepEvents_active s r e he]
    unfold applyEventEffects
    rw [he]
    dsimp only []
    rw [hd]
    norm_num
  refine ⟨?_, ?_, ?_, ?_⟩
  · rw [tick_current_event, hstep]
  · intro hE; subst hE
    rw [tick_road_condition, hstep]
    rfl
  · intro hE; subst hE
    rw [tick_wind_speed, hstep]
    constructor
    · show (-2 : ℚ) ≤ -2 + r.u2 * 4
      linarith
    · show (-2 : ℚ) + r.u2 * 4 ≤ 2
      linarith
  · intro hE; subst hE
    rw [tick_road_grade, hstep]
    constructor
    · show (-2 : ℚ) ≤ -2 + r.u2 * 4
      linarith
    · show (-2 : ℚ) + r.u2 * 4 ≤ 2
      linarith

/-- Witness for C4: a rain event one tick from expiry. -/
theorem event_expiry_witness :
    (tick sinAtanZero rainEnding 1 quietRand).current_event = none ∧
    (EventKind.pluie = EventKind.pluie →
      (tick sinAtanZero rainEnding 1 quietRand).data.road_condition = 0) ∧
    (EventKind.pluie = EventKind.vent_lateral →
      -2 ≤ (tick sinAtanZero rainEnding 1 quietRand).data.wind_speed ∧
      (tick sinAtanZero rainEnding 1 quietRand).data.wind_speed ≤ 2) ∧
    (EventKind.pluie = EventKind.montee →
      -2 ≤ (tick sinAtanZero rainEnding 1 quietRand).data.road_grade ∧
      (tick sinAtanZero rainEnding 1 quietRand).data.road_grade ≤ 2) :=
  event_expiry_resets sinAtanZero rainEnding 1 quietRand EventKind.pluie
    rfl rfl (by norm_num [quietRand]) (by norm_num [quietRand])


/-- C8 (amended): per tick while active, `feu_rouge` (RedLight) subtracts a
fixed 5 km/h and `peage` (TollBooth) subtracts a fixed 10 km/h — a strictly
larger decrement, not a smaller one — both floored at speed 0. -/
theorem red_light_toll_decrements (s : SimState) (u1 u2 : ℚ) :
    (s.current_event = some EventKind.feu_rouge →
      (applyEventEffects s u1 u2).data.speed = qmax 0 (s.data.speed - 5)) ∧
    (s.current_event = some EventKind.peage →
      (applyEventEffects s u1 u2).data.speed = qmax 0 (s.data.speed - 10)) ∧
    (5 : ℚ) < 10 := by
  refine ⟨?_, ?_, by norm_num⟩
  · intro h
    unfold applyEventEffects
    rw [h]
    dsimp only []
    split <;> rfl
  · intro h
    unfold applyEventEffects
    rw [h]
    dsimp only []
    split <;> rfl

/-- C8 counterexample: from 50 km/h, RedLight leaves 45 km/h (decrement 5)
and TollBooth leaves 40 km/h (decrement 10), so TollBooth's decrement is
not strictly smaller than RedLight's. -/
theorem red_light_toll_counterexample :
    (applyEventEffects redLightState 0 0).data.speed = 45 ∧
    (applyEventEffects tollState 0 0).data.speed = 40 ∧
    ¬ (redLightState.data.speed - (applyEventEffects tollState 0 0).data.speed
        < redLightState.data.speed
          - (applyEventEffects redLightState 0 0).data.speed) := by
  norm_num [applyEventEffects, eventEffect, redLightState, tollState,
    initState, qmax]

/-- Witness for C8's amended theorem at the two concrete event states. -/
theorem red_light_toll_witness :
    (applyEventEffects redLightState 0 0).data.speed
      = qmax 0 (redLightState.data.speed - 5) ∧
    (applyEventEffects tollState 0 0).data.speed
      = qmax 0 (tollState.data.speed - 10) :=
  ⟨(red_light_toll_decrements redLightState 0 0).1 rfl,
   (red_light_toll_decrements tollState 0 0).2.1 rfl⟩

/-- C6 (amended): an unknown mode key is rejected: `change_mode` returns
False and leaves the whole state unchanged, and `start` with an unknown key
keeps the current mode — which is Urban only because the initial mode is
Urban, not because unknown keys map to Urban. -/
theorem unknown_mode_rejected (s : SimState) (m : String)
    (h : isModeKey m = false) :
    (changeMode s m).1 = false ∧ (changeMode s m).2 = s ∧
    (start s (some m)).current_mode = s.current_mode := by
  refine ⟨?_, ?_, ?_⟩
  · unfold changeMode
    rw [if_neg (by simp [h])]
  · unfold changeMode
    rw [if_neg (by simp [h])]
  · unfold start
    simp only [h, Bool.false_eq_true, if_false]
    split <;> rfl

/-- C6 counterexample: a simulator already switched to sport mode keeps
sport — not Urban — when the unknown key "volant" is supplied. -/
theorem unknown_mode_counterexample :
    isModeKey "volant" = false ∧
    ((changeMode ((changeMode initState "sport").2) "volant").2).current_mode
      = "sport" ∧
    (start ((changeMode initState "sport").2) (some "volant")).current_mode
      = "sport" ∧
    "sport" ≠ "urbain" := by
  refine ⟨by decide, ?_, ?_, by decide⟩
  · simp [changeMode, isModeKey, MODE_PARAMS, initState]
  · simp [start, changeMode, isModeKey, MODE_PARAMS, initState]

/-- Witness for C6's amended theorem at the unknown key "volant". -/
theorem unknown_mode_witness :
    (changeMode initState "volant").1 = false ∧
    (changeMode initState "volant").2 = initState ∧
    (start initState (some "volant")).current_mode = initState.current_mode :=
  unknown_mode_rejected initState "volant" (by decide)

lemma updateVehicleState_mode (sa : ℚ → ℚ) (s : SimState) (dt : ℚ)
    (r : TickRand) :
    (updateVehicleState sa s dt r).current_mode = s.current_mode :=
  stepEvents_mode s r

/-- C3 (amended): inside `_update_vehicle_state` the displayed consumption
is indeed power/speed×100 above 5 km/h and the mode's base consumption at
or below it — but the value delivered in the tick's snapshot is not that:
`_calculate_energy_consumption` overwrites it with the additive multi-factor
formula before the callbacks fire. -/
theorem snapshot_consumption_formula (sa : ℚ → ℚ) (s : SimState) (dt : ℚ)
    (r : TickRand) :
    (5 < (updateVehicleState sa s dt r).data.speed →
      (updateVehicleState sa s dt r).data.energy_consumption
        = (updateVehicleState sa s dt r).data.instant_consumption
          / (updateVehicleState sa s dt r).data.speed * 100) ∧
    ((updateVehicleState sa s dt r).data.speed ≤ 5 →
      (updateVehicleState sa s dt r).data.energy_consumption
        = (getModeParams s.current_mode).conso_base) ∧
    (tick sa s dt r).data.energy_consumption
      = consoTotale s.current_mode (updateVehicleState sa s dt r).data := by
  have hspeed : (updateVehicleState sa s dt r).data.speed
      = newSpeed (getModeParams s.current_mode) (stepEvents s r).data r.noise dt := rfl
  have hec : (updateVehicleState sa s dt r).data.energy_consumption
      = consoDisplay sa (getModeParams s.current_mode) (stepEvents s r).data r.noise dt := rfl
  have hic : (updateVehicleState sa s dt r).data.instant_consumption
      = instantConso sa (getModeParams s.current_mode) (stepEvents s r).data r.noise dt := rfl
  refine ⟨?_, ?_, ?_⟩
  · intro h
    rw [hspeed] at h
    rw [hec, hic, hspeed]
    unfold consoDisplay
    rw [if_pos h]
  · intro h
    rw [hspeed] at h
    rw [hec]
    unfold consoDisplay
    rw [if_neg (not_lt.mpr h)]
  · show consoTotale (updateVehicleState sa s dt r).current_mode
        (updateVehicleState sa s dt r).data = _
    rw [updateVehicleState_mode]

/-- C3 counterexample: one tick from 40 km/h in urbain mode ends above
5 km/h, yet the snapshot's `energy_consumption` is not instantaneous power
over speed times 100 — the overwrite won. -/
theorem snapshot_consumption_counterexample :
    5 < (tick sinAtanZero cruising40 1 quietRand).data.speed ∧
    (tick sinAtanZero cruising40 1 quietRand).data.energy_consumption
      ≠ (tick sinAtanZero cruising40 1 quietRand).data.instant_consumption
        / (tick sinAtanZero cruising40 1 quietRand).data.speed * 100 := by
  norm_num [tick, calculateEnergyConsumption, consoTotale, updateVehicleState,
    kinUpdate, stepEvents, handleRandomEvents, applyEventEffects, newSpeed,
    accelOf, rawSpeedChange, tendanceVitesse, instantConso, consoDisplay,
    batteryAfter, autonomyAfter, tempAfter, motorLoadAfter, tireAfter,
    newDistance, getModeParams, MODE_PARAMS, modeFactor, qmax, qmin, qabs,
    cruising40, initState, quietRand, sinAtanZero]

/-- Witness for C3's amended theorem: the in-update display value at a
concrete above-threshold tick. -/
theorem snapshot_consumption_witness :
    (updateVehicleState sinAtanZero cruising40 1 quietRand).data.energy_consumption
      = (updateVehicleState sinAtanZero cruising40 1 quietRand).data.instant_consumption
        / (updateVehicleState sinAtanZero cruising40 1 quietRand).data.speed * 100 :=
  (snapshot_consumption_formula sinAtanZero cruising40 1 quietRand).1
    (by norm_num [updateVehicleState, kinUpdate, stepEvents, handleRandomEvents,
      newSpeed, accelOf, rawSpeedChange, tendanceVitesse, getModeParams,
      MODE_PARAMS, qmax, qmin, cruising40, initState, quietRand])

/-- C9 (amended): with the same random draws and the same `dt` sequence,
two runs from the same state agree on every `vehicle_data` field of every
snapshot; only the wall-clock `timestamp` field can differ. -/
theorem seeded_runs_agree (sa : ℚ → ℚ) (s : SimState) (l1 l2 : List TickInput)
    (he : l1.map TickInput.elapsed = l2.map TickInput.elapsed)
    (hr : l1.map TickInput.rand = l2.map TickInput.rand) :
    (runSim sa s l1).map Snapshot.data = (runSim sa s l2).map Snapshot.data := by
  induction l1 generalizing s l2 with
  | nil =>
      cases l2 with
      | nil => rfl
      | cons j t2 => simp at he
  | cons i t ih =>
      cases l2 with
      | nil => simp at he
      | cons j t2 =>
          simp only [List.map_cons, List.cons.injEq] at he hr
          simp only [runSim, List.map_cons, List.cons.injEq]
          refine ⟨?_, ?_⟩
          · show (tick sa s i.elapsed i.rand).data = (tick sa s j.elapsed j.rand).data
            rw [he.1, hr.1]
          · rw [show tick sa s i.elapsed i.rand = tick sa s j.elapsed j.rand by
              rw [he.1, hr.1]]
            exact ih (tick sa s j.elapsed j.rand) t2 he.2 hr.2

/-- C9 counterexample: identical seed (random draws) and `dt` sequence, but
the two snapshot sequences differ — in the wall-clock `timestamp` field of
`get_current_data`, which no seed controls. -/
theorem seeded_runs_counterexample :
    inputsA.map TickInput.elapsed = inputsB.map TickInput.elapsed ∧
    inputsA.map TickInput.rand = inputsB.map TickInput.rand ∧
    runSim sinAtanZero initState inputsA ≠ runSim sinAtanZero initState inputsB := by
  refine ⟨rfl, rfl, ?_⟩
  intro h
  have hts := congrArg (List.map Snapshot.timestamp) h
  simp only [inputsA, inputsB, runSim, getCurrentData, List.map_cons,
    List.map_nil, List.cons.injEq, and_true] at hts
  exact absurd hts (by decide)

/-- Witness for C9's amended theorem on the two concrete input lists. -/
theorem seeded_runs_witness :
    (runSim sinAtanZero initState inputsA).map Snapshot.data
      = (runSim sinAtanZero initState inputsB).map Snapshot.data :=
  seeded_runs_agree sinAtanZero initState inputsA inputsB rfl rfl
